import Mathlib

/-!
Formal model of the Sauti Mpya confidential-support-chat core: the keyword
risk classifier and the rule-based fallback response generator from
src/pages/Chat.tsx, the audio utility functions (format negotiation,
microphone acquisition outcomes), and the voice-recorder state machine,
together with proofs of the specified properties.

The recorder is modelled as an explicit event-step state machine: each UI
handler of the component becomes a total function on an explicit session
state, browser resources (capture-device tracks, interval timers, object
URLs) are tracked by explicit fields, and the asynchronous recorder-stopped
callback is folded into the stop transition, matching the single-threaded
event-at-a-time execution model of the host.
-/

namespace Sauti

/-- Tests whether the first character list is an initial segment of the
second; the inner loop of the substring search below. -/
def leadsWith : List Char → List Char → Bool
  | [], _ => true
  | _ :: _, [] => false
  | a :: as, b :: bs => a == b && leadsWith as bs

/-- Tests whether the first character list occurs contiguously inside the
second. -/
def occursIn : List Char → List Char → Bool
  | sub, [] => leadsWith sub []
  | sub, c :: cs => leadsWith sub (c :: cs) || occursIn sub cs

/-- Substring containment on strings: models the JavaScript
String.prototype.includes test used by the classifier. -/
def jsIncludes (s w : String) : Bool :=
  occursIn w.data s.data

/-- Character-wise lowercasing: models the JavaScript toLowerCase call on
the ASCII inputs the term sets consist of. -/
def jsToLower (s : String) : String :=
  ⟨s.data.map Char.toLower⟩

/-- The fixed high-risk term set of analyzeRisk in Chat.tsx. -/
def highRiskWords : List String :=
  ["hit", "hits", "hitting", "punch", "kick", "choke", "strangle", "weapon",
   "knife", "gun", "kill", "murder", "rape", "force"]

/-- The fixed medium-risk term set of analyzeRisk in Chat.tsx. -/
def mediumRiskWords : List String :=
  ["hurt", "afraid", "scared", "fear", "threaten", "control", "isolate",
   "yell", "scream", "insult", "slap", "push", "shove"]

/-- The risk classifier of Chat.tsx: lowercase the input, return high when
any high-risk term occurs as a substring, otherwise medium when any
medium-risk term occurs, otherwise low. -/
def analyzeRisk (text : String) : String :=
  let lowerText := jsToLower text
  let hasHighRisk := highRiskWords.any (fun word => jsIncludes lowerText word)
  let hasMediumRisk := mediumRiskWords.any (fun word => jsIncludes lowerText word)
  if hasHighRisk then "high"
  else if hasMediumRisk then "medium"
  else "low"

/-- Canned response for a high-risk classification. -/
def highRiskResponse : String :=
  "I\x27m very concerned about your safety. What you\x27re describing sounds serious and dangerous. Please know that you don\x27t deserve to be treated this way, and help is available. Would you like me to share emergency contact numbers for your country? If you\x27re in immediate danger, please call emergency services or use the helpline numbers at the bottom of this page."

/-- Canned response for a medium-risk classification. -/
def mediumRiskResponse : String :=
  "Thank you for sharing that with me. What you\x27re experiencing sounds really difficult and you deserve to feel safe and respected. These behaviors can be warning signs of abuse. Would you be open to taking our safety assessment? It might help you understand your situation better. Remember, you have options and support is available."

/-- Canned response for help-seeking messages. -/
def helpResponse : String :=
  "I\x27m here to support you. Here are some steps you can take: 1) Take our safety assessment to better understand your situation, 2) Create a safety plan, 3) Reach out to local helplines (you\x27ll find numbers at the bottom of this page), 4) Talk to someone you trust. Would you like me to guide you through any of these?"

/-- Canned response for messages about leaving. -/
def leavingResponse : String :=
  "Leaving an abusive situation is a brave step, and it\x27s important to plan carefully for your safety. Our safety plan tool can help you prepare. Remember: leaving can be the most dangerous time, so having a plan is crucial. Would you like help creating a safety plan?"

/-- Canned response for self-blame messages. -/
def faultResponse : String :=
  "Please hear this: abuse is NEVER your fault. No matter what you did or didn\x27t do, no one deserves to be hurt, controlled, or frightened. The person choosing to be abusive is responsible for their behavior, not you. You deserve to be treated with respect and kindness."

/-- Canned response for messages mentioning children. -/
def childrenResponse : String :=
  "I understand you\x27re concerned about children in this situation. Children who witness abuse are affected by it, even if they\x27re not directly harmed. Their safety and wellbeing matter too. If you\x27re worried about a child\x27s safety, please reach out to child protection services or the helplines at the bottom of this page."

/-- The generic default canned response. -/
def defaultResponse : String :=
  "Thank you for sharing that with me. Your feelings are valid, and it takes courage to talk about these things. I\x27m here to listen without judgment. Would you like to tell me more, or would you prefer to explore our safety assessment or resources?"

/-- Help-seeking substring test of generateFallbackResponse (applied to the
lowercased message). -/
def mentionsHelp (m : String) : Bool :=
  jsIncludes m "help" || jsIncludes m "what do i do" || jsIncludes m "what should i"

/-- Leaving substring test of generateFallbackResponse. -/
def mentionsLeaving (m : String) : Bool :=
  jsIncludes m "leave" || jsIncludes m "leaving"

/-- Self-blame substring test of generateFallbackResponse. -/
def mentionsFault (m : String) : Bool :=
  jsIncludes m "fault" || jsIncludes m "blame" || jsIncludes m "my fault"

/-- Children substring test of generateFallbackResponse. -/
def mentionsChildren (m : String) : Bool :=
  jsIncludes m "children" || jsIncludes m "kids" || jsIncludes m "child"

/-- The fallback response generator of Chat.tsx: risk tiers first, then the
help-seeking, leaving, self-blame and children rules, then the default. -/
def generateFallbackResponse (userMessage : String) : String :=
  let riskLevel := analyzeRisk userMessage
  let lowerMessage := jsToLower userMessage
  if riskLevel = "high" then highRiskResponse
  else if riskLevel = "medium" then mediumRiskResponse
  else if mentionsHelp lowerMessage then helpResponse
  else if mentionsLeaving lowerMessage then leavingResponse
  else if mentionsFault lowerMessage then faultResponse
  else if mentionsChildren lowerMessage then childrenResponse
  else defaultResponse

/-- The preference-ordered encoding list of getSupportedMimeType in
audioUtils.ts. -/
def mimeTypeCandidates : List String :=
  ["audio/webm", "audio/webm;codecs=opus", "audio/ogg;codecs=opus", "audio/mp4"]

/-- The loop of getSupportedMimeType: first list element accepted by the
runtime support predicate, if any. -/
def firstSupported (isTypeSupported : String → Bool) : List String → Option String
  | [] => none
  | t :: ts => if isTypeSupported t then some t else firstSupported isTypeSupported ts

/-- Format negotiation of audioUtils.ts, parameterised by the runtime
support predicate: first supported candidate, with the fixed fallback when
none is supported. -/
def getSupportedMimeType (isTypeSupported : String → Bool) : String :=
  (firstSupported isTypeSupported mimeTypeCandidates).getD "audio/webm"

/-- Outcome of a microphone-acquisition attempt, as distinguished by
requestMicrophonePermission in audioUtils.ts. -/
inductive MicOutcome where
  | granted
  | notAllowedError
  | notFoundError
  | otherError
deriving DecidableEq

/-- Error message thrown by requestMicrophonePermission for each failing
acquisition outcome. -/
def micErrorMessage : MicOutcome → Option String
  | .granted => none
  | .notAllowedError =>
      some "Microphone permission denied. Please allow microphone access to record voice messages."
  | .notFoundError =>
      some "No microphone found. Please connect a microphone and try again."
  | .otherError =>
      some "Failed to access microphone. Please check your browser settings."

/-- Error message set by startRecording when the runtime lacks audio
capture capability. -/
def unsupportedMsg : String :=
  "Audio recording is not supported in your browser."

/-- A finalized audio payload: concatenated byte data tagged with a media
type, modelling a browser Blob. -/
structure Blob where
  data : List Nat
  type : String
deriving DecidableEq

/-- The session state of the VoiceRecorder component: its React state
variables, its refs, and explicit resource accounting (live capture-device
tracks, number of running interval tickers, live object URLs) plus the
payloads emitted to the caller through onSendVoice. -/
structure RecorderState where
  isRecording : Bool
  isPaused : Bool
  duration : Nat
  audioUrl : Option Nat
  audioBlob : Option Blob
  error : Option String
  isPlaying : Bool
  hasMediaRecorder : Bool
  audioChunks : List (List Nat)
  hasStream : Bool
  tracksLive : Bool
  timerOn : Bool
  activeTickers : Nat
  mimeType : String
  liveUrls : List Nat
  nextUrl : Nat
  sent : List Blob
deriving DecidableEq

/-- The freshly mounted recorder: nothing started, nothing held. -/
def initState : RecorderState :=
  { isRecording := false, isPaused := false, duration := 0, audioUrl := none,
    audioBlob := none, error := none, isPlaying := false,
    hasMediaRecorder := false, audioChunks := [], hasStream := false,
    tracksLive := false, timerOn := false, activeTickers := 0,
    mimeType := "", liveUrls := [], nextUrl := 0, sent := [] }

/-- startTimer of VoiceRecorder: installs a new one-second interval into
the timer ref (an interval already referenced would be orphaned, which the
ticker count records). -/
def startTimer (s : RecorderState) : RecorderState :=
  { s with timerOn := true, activeTickers := s.activeTickers + 1 }

/-- stopTimer of VoiceRecorder: clears the referenced interval when one is
present, otherwise does nothing. -/
def stopTimer (s : RecorderState) : RecorderState :=
  if s.timerOn then { s with timerOn := false, activeTickers := s.activeTickers - 1 }
  else s

/-- The environment a start attempt runs against: capability support,
microphone-acquisition outcome, and the runtime encoding-support
predicate. -/
structure StartEnv where
  supported : Bool
  mic : MicOutcome
  isTypeSupported : String → Bool

/-- startRecording of VoiceRecorder: capability check first, then device
acquisition; on success wires the recorder with the negotiated format,
clears the chunk buffer, begins capture and ticking; on failure only the
error message changes. -/
def startRecording (env : StartEnv) (s : RecorderState) : RecorderState :=
  if env.supported = false then
    { s with error := some unsupportedMsg }
  else
    match env.mic with
    | .granted =>
        startTimer { s with
          error := none,
          hasStream := true,
          tracksLive := true,
          mimeType := getSupportedMimeType env.isTypeSupported,
          hasMediaRecorder := true,
          audioChunks := [],
          isRecording := true }
    | outcome => { s with error := micErrorMessage outcome }

/-- stopRecording of VoiceRecorder, with the recorder-stopped callback
folded in: when a recorder is wired and recording, finalize the blob from
the accumulated chunks tagged with the negotiated format, create its object
URL, stop the capture-device tracks, leave Recording/Paused, and stop the
ticker. -/
def stopRecording (s : RecorderState) : RecorderState :=
  if s.hasMediaRecorder && s.isRecording then
    stopTimer { s with
      audioBlob := some { data := s.audioChunks.flatten, type := s.mimeType },
      audioUrl := some s.nextUrl,
      liveUrls := s.liveUrls ++ [s.nextUrl],
      nextUrl := s.nextUrl + 1,
      tracksLive := if s.hasStream then false else s.tracksLive,
      isRecording := false,
      isPaused := false }
  else s

/-- pauseRecording of VoiceRecorder: while recording, toggles between
Paused (suspend capture, stop ticking) and Recording (resume capture,
restart ticking). -/
def pauseRecording (s : RecorderState) : RecorderState :=
  if s.hasMediaRecorder && s.isRecording then
    if s.isPaused then startTimer { s with isPaused := false }
    else stopTimer { s with isPaused := true }
  else s

/-- playAudio of VoiceRecorder: toggles preview playback when a preview
URL exists. -/
def playAudio (s : RecorderState) : RecorderState :=
  if s.audioUrl.isSome then { s with isPlaying := !s.isPlaying } else s

/-- Revocation of the preview object URL, a no-op when none exists or it
was already revoked. -/
def revokeAudioUrl (s : RecorderState) : RecorderState :=
  match s.audioUrl with
  | some u => { s with liveUrls := s.liveUrls.erase u }
  | none => s

/-- handleSend of VoiceRecorder: only when a finalized blob exists, emit it
to the caller and revoke the preview URL; otherwise do nothing. -/
def handleSend (s : RecorderState) : RecorderState :=
  match s.audioBlob with
  | some blob => revokeAudioUrl { s with sent := s.sent ++ [blob] }
  | none => s

/-- handleCancel of VoiceRecorder: stop any active recording, then revoke
the preview URL the handler read before the stop; a URL created by the
recorder-stopped callback folded into that stop is therefore not revoked,
mirroring the stale pre-stop read of audioUrl in the source. -/
def handleCancel (s : RecorderState) : RecorderState :=
  let t := stopRecording s
  match s.audioUrl with
  | some u => { t with liveUrls := t.liveUrls.erase u }
  | none => t

/-- The discrete events the recorder session reacts to: the user actions
reachable through the rendered controls, interval ticks, and
fragment-delivery callbacks from the capture runtime. -/
inductive Event where
  | startClick (env : StartEnv)
  | tick
  | dataAvailable (chunk : List Nat)
  | stopClick
  | pauseClick
  | playClick
  | sendClick
  | cancelClick

/-- One event processed against the session state. The start button only
renders when not recording and no preview exists; a tick can only fire
while some interval runs; fragment delivery only happens during active
unpaused capture and drops zero-length fragments; the remaining handlers
carry their own guards. -/
def step : Event → RecorderState → RecorderState
  | .startClick env, s =>
      if !s.isRecording && s.audioUrl.isNone then startRecording env s else s
  | .tick, s =>
      if 0 < s.activeTickers then { s with duration := s.duration + 1 } else s
  | .dataAvailable chunk, s =>
      if s.hasMediaRecorder && s.isRecording && !s.isPaused then
        if 0 < chunk.length then { s with audioChunks := s.audioChunks ++ [chunk] }
        else s
      else s
  | .stopClick, s => stopRecording s
  | .pauseClick, s => pauseRecording s
  | .playClick, s => playAudio s
  | .sendClick, s => handleSend s
  | .cancelClick, s => handleCancel s

/-- A whole event trace processed in order. -/
def run (evs : List Event) (s : RecorderState) : RecorderState :=
  evs.foldl (fun t e => step e t) s

/-- The abstract phases of the specified recorder state machine. -/
inductive Phase where
  | Idle
  | Recording
  | Paused
  | Ready
deriving DecidableEq

/-- The abstract phase of a session state, as rendered by the component:
recording (paused or not), otherwise ready when a preview exists, otherwise
idle. -/
def RecorderState.phase (s : RecorderState) : Phase :=
  if s.isRecording then (if s.isPaused then .Paused else .Recording)
  else if s.audioUrl.isSome then .Ready
  else .Idle

/-- The session invariant: the timer ref is installed exactly during
unpaused recording and counts exactly the running tickers; the device
tracks are live exactly while recording; recording implies a wired stream
and recorder; paused implies recording; blob and preview URL exist
together, only outside recording; at most the current preview URL is live;
accumulated fragments are non-empty. -/
def Inv (s : RecorderState) : Prop :=
  s.timerOn = (s.isRecording && !s.isPaused)
  ∧ s.activeTickers = (if s.timerOn then 1 else 0)
  ∧ s.tracksLive = s.isRecording
  ∧ (s.isRecording = true → s.hasStream = true ∧ s.hasMediaRecorder = true)
  ∧ (s.isPaused = true → s.isRecording = true)
  ∧ s.audioBlob.isSome = s.audioUrl.isSome
  ∧ (s.audioUrl.isSome = true → s.isRecording = false)
  ∧ (s.liveUrls = [] ∨ s.liveUrls = s.audioUrl.toList)
  ∧ (∀ c ∈ s.audioChunks, c ≠ [])

instance decidableInv (s : RecorderState) : Decidable (Inv s) := by
  unfold Inv
  exact inferInstance

/-- A successful start environment for concrete scenarios: capability
present, permission granted, every encoding supported. -/
def env0 : StartEnv :=
  { supported := true, mic := .granted, isTypeSupported := fun _ => true }

/-- The specified scenario trace: start, three ticks, pause, two ticks,
resume, two ticks, stop. -/
def scenarioEvents : List Event :=
  [.startClick env0, .tick, .tick, .tick, .pauseClick, .tick, .tick,
   .pauseClick, .tick, .tick, .stopClick]

lemma anyEqFalse {p : String → Bool} {l : List String}
    (h : ∀ w ∈ l, p w = false) : l.any p = false := by
  cases ha : l.any p
  · rfl
  · obtain ⟨w, hw, hp⟩ := List.any_eq_true.mp ha
    simp [h w hw] at hp

/-- C1: the risk classifier lowercases its input and returns high when any
high-risk term occurs as a substring of the lowercased text, otherwise
medium when any medium-risk term occurs, otherwise low; a text matching
both sets returns high, and the classifier is total, always producing one
of the three tiers. -/
theorem analyzeRisk_spec (text : String) :
    ((∃ w ∈ highRiskWords, jsIncludes (jsToLower text) w = true) →
        analyzeRisk text = "high")
    ∧ ((∀ w ∈ highRiskWords, jsIncludes (jsToLower text) w = false) →
        (∃ w ∈ mediumRiskWords, jsIncludes (jsToLower text) w = true) →
        analyzeRisk text = "medium")
    ∧ ((∀ w ∈ highRiskWords, jsIncludes (jsToLower text) w = false) →
        (∀ w ∈ mediumRiskWords, jsIncludes (jsToLower text) w = false) →
        analyzeRisk text = "low")
    ∧ (analyzeRisk text = "high" ∨ analyzeRisk text = "medium"
        ∨ analyzeRisk text = "low") := by
  refine ⟨?_, ?_, ?_, ?_⟩
  · rintro ⟨w, hw, hinc⟩
    have hh : highRiskWords.any (fun word => jsIncludes (jsToLower text) word) = true :=
      List.any_eq_true.mpr ⟨w, hw, hinc⟩
    simp [analyzeRisk, hh]
  · intro hall hex
    obtain ⟨w, hw, hinc⟩ := hex
    have hh := anyEqFalse hall
    have hm : mediumRiskWords.any (fun word => jsIncludes (jsToLower text) word) = true :=
      List.any_eq_true.mpr ⟨w, hw, hinc⟩
    simp [analyzeRisk, hh, hm]
  · intro hallh hallm
    simp [analyzeRisk, anyEqFalse hallh, anyEqFalse hallm]
  · cases hh : highRiskWords.any (fun word => jsIncludes (jsToLower text) word) <;>
      cases hm : mediumRiskWords.any (fun word => jsIncludes (jsToLower text) word) <;>
      simp [analyzeRisk, hh, hm]

/-- Witness: the text of spec property P5 contains terms of both sets and
classifies high. -/
theorem analyzeRisk_spec_witness :
    analyzeRisk "He hit me and also scared me" = "high" :=
  (analyzeRisk_spec "He hit me and also scared me").1
    ⟨"hit", by decide, by decide⟩

/-- C2: the fallback generator returns exactly one of the seven canned
messages, chosen by the first matching rule in the fixed order high-risk,
medium-risk, help-seeking, leaving, self-blame, children-mentioned,
generic default; in particular a low-risk text matching the leaving rule
receives the leaving response regardless of later rules. -/
theorem generateFallbackResponse_spec (msg : String) :
    (generateFallbackResponse msg = highRiskResponse
      ∨ generateFallbackResponse msg = mediumRiskResponse
      ∨ generateFallbackResponse msg = helpResponse
      ∨ generateFallbackResponse msg = leavingResponse
      ∨ generateFallbackResponse msg = faultResponse
      ∨ generateFallbackResponse msg = childrenResponse
      ∨ generateFallbackResponse msg = defaultResponse)
    ∧ (analyzeRisk msg = "high" →
        generateFallbackResponse msg = highRiskResponse)
    ∧ (analyzeRisk msg = "medium" →
        generateFallbackResponse msg = mediumRiskResponse)
    ∧ (analyzeRisk msg = "low" → mentionsHelp (jsToLower msg) = true →
        generateFallbackResponse msg = helpResponse)
    ∧ (analyzeRisk msg = "low" → mentionsHelp (jsToLower msg) = false →
        mentionsLeaving (jsToLower msg) = true →
        generateFallbackResponse msg = leavingResponse)
    ∧ (analyzeRisk msg = "low" → mentionsHelp (jsToLower msg) = false →
        mentionsLeaving (jsToLower msg) = false →
        mentionsFault (jsToLower msg) = true →
        generateFallbackResponse msg = faultResponse)
    ∧ (analyzeRisk msg = "low" → mentionsHelp (jsToLower msg) = false →
        mentionsLeaving (jsToLower msg) = false →
        mentionsFault (jsToLower msg) = false →
        mentionsChildren (jsToLower msg) = true →
        generateFallbackResponse msg = childrenResponse)
    ∧ (analyzeRisk msg = "low" → mentionsHelp (jsToLower msg) = false →
        mentionsLeaving (jsToLower msg) = false →
        mentionsFault (jsToLower msg) = false →
        mentionsChildren (jsToLower msg) = false →
        generateFallbackResponse msg = defaultResponse) := by
  refine ⟨?_, ?_, ?_, ?_, ?_, ?_, ?_, ?_⟩
  · simp only [generateFallbackResponse]
    split_ifs <;> tauto
  · intro h
    simp [generateFallbackResponse, h]
  · intro h
    simp [generateFallbackResponse, h]
  · intro h hhelp
    simp [generateFallbackResponse, h, hhelp]
  · intro h hhelp hleave
    simp [generateFallbackResponse, h, hhelp, hleave]
  · intro h hhelp hleave hfault
    simp [generateFallbackResponse, h, hhelp, hleave, hfault]
  · intro h hhelp hleave hfault hchild
    simp [generateFallbackResponse, h, hhelp, hleave, hfault, hchild]
  · intro h hhelp hleave hfault hchild
    simp [generateFallbackResponse, h, hhelp, hleave, hfault, hchild]

/-- Witness: a low-risk text matching both the leaving rule and the
children rule receives the leaving response. -/
theorem generateFallbackResponse_spec_witness :
    mentionsChildren (jsToLower "I am leaving with my children") = true
    ∧ generateFallbackResponse "I am leaving with my children" = leavingResponse :=
  ⟨by decide,
   (generateFallbackResponse_spec "I am leaving with my children").2.2.2.2.1
     (by decide) (by decide) (by decide)⟩

lemma firstSupported_eq_none {p : String → Bool} :
    ∀ {l : List String}, (∀ t ∈ l, p t = false) → firstSupported p l = none := by
  intro l h
  induction l with
  | nil => rfl
  | cons t ts ih =>
      simp only [firstSupported, h t (by simp)]
      simp only [Bool.false_eq_true, if_false]
      exact ih fun u hu => h u (by simp [hu])

lemma firstSupported_first {p : String → Bool} :
    ∀ (pre : List String) (t : String) (post : List String), p t = true →
      (∀ u ∈ pre, p u = false) → firstSupported p (pre ++ t :: post) = some t := by
  intro pre
  induction pre with
  | nil => intro t post ht _; simp [firstSupported, ht]
  | cons u us ih =>
      intro t post ht hall
      simp only [List.cons_append, firstSupported, hall u (by simp)]
      simp only [Bool.false_eq_true, if_false]
      exact ih t post ht fun v hv => hall v (by simp [hv])

/-- C9: for every runtime support predicate, format negotiation returns
the first supported encoding of the preference list, and the fixed default
encoding when the runtime supports none of them. -/
theorem getSupportedMimeType_spec (p : String → Bool) :
    ((∀ t ∈ mimeTypeCandidates, p t = false) →
        getSupportedMimeType p = "audio/webm")
    ∧ (∀ (pre : List String) (t : String) (post : List String),
        mimeTypeCandidates = pre ++ t :: post → p t = true →
        (∀ u ∈ pre, p u = false) → getSupportedMimeType p = t) := by
  constructor
  · intro h
    unfold getSupportedMimeType
    rw [firstSupported_eq_none h]
    rfl
  · intro pre t post heq ht hall
    unfold getSupportedMimeType
    rw [heq, firstSupported_first pre t post ht hall]
    rfl

/-- Witness: a runtime supporting nothing negotiates the default, and a
runtime supporting only the last candidate negotiates that candidate. -/
theorem getSupportedMimeType_spec_witness :
    getSupportedMimeType (fun _ => false) = "audio/webm"
    ∧ getSupportedMimeType (fun t => t == "audio/mp4") = "audio/mp4" :=
  ⟨(getSupportedMimeType_spec (fun _ => false)).1 (by decide),
   (getSupportedMimeType_spec (fun t => t == "audio/mp4")).2
     ["audio/webm", "audio/webm;codecs=opus", "audio/ogg;codecs=opus"]
     "audio/mp4" [] rfl (by decide) (by decide)⟩

lemma Inv_initState : Inv initState := by decide

lemma recording_no_artifact {s : RecorderState} (h : Inv s)
    (hrec : s.isRecording = true) :
    s.audioUrl = none ∧ s.audioBlob = none ∧ s.liveUrls = [] := by
  obtain ⟨h1, h2, h3, h4, h5, h6, h7, h8, h9⟩ := h
  have hun : s.audioUrl = none := by
    cases hu : s.audioUrl
    · rfl
    · rw [h7 (by simp [hu])] at hrec; cases hrec
  have hb : s.audioBlob = none := by
    cases hbb : s.audioBlob
    · rfl
    · rw [hbb, hun] at h6; cases h6
  have hlive : s.liveUrls = [] := by
    rcases h8 with h8 | h8
    · exact h8
    · simpa [hun] using h8
  exact ⟨hun, hb, hlive⟩

lemma Inv_startRecording (env : StartEnv) {s : RecorderState} (h : Inv s)
    (hrec : s.isRecording = false) (hurl : s.audioUrl.isNone = true) :
    Inv (startRecording env s) := by
  obtain ⟨h1, h2, h3, h4, h5, h6, h7, h8, h9⟩ := h
  have hp : s.isPaused = false := by
    cases hpp : s.isPaused
    · rfl
    · rw [h5 hpp] at hrec; cases hrec
  have ht : s.timerOn = false := by rw [h1, hrec]; rfl
  have htk : s.activeTickers = 0 := by rw [h2, ht]; rfl
  have hun : s.audioUrl = none := by
    cases hu : s.audioUrl
    · rfl
    · rw [hu] at hurl; cases hurl
  have hb : s.audioBlob = none := by
    cases hbb : s.audioBlob
    · rfl
    · rw [hbb, hun] at h6; cases h6
  have hlive : s.liveUrls = [] := by
    rcases h8 with h8 | h8
    · exact h8
    · simpa [hun] using h8
  obtain ⟨sup, mic, its⟩ := env
  cases sup with
  | false => exact ⟨h1, h2, h3, h4, h5, h6, h7, h8, h9⟩
  | true =>
      cases mic with
      | granted =>
          refine ⟨?_, ?_, ?_, ?_, ?_, ?_, ?_, ?_, ?_⟩ <;>
            simp [startRecording, startTimer, hp, ht, htk, hun, hb, hlive]
      | notAllowedError => exact ⟨h1, h2, h3, h4, h5, h6, h7, h8, h9⟩
      | notFoundError => exact ⟨h1, h2, h3, h4, h5, h6, h7, h8, h9⟩
      | otherError => exact ⟨h1, h2, h3, h4, h5, h6, h7, h8, h9⟩

lemma Inv_stopRecording {s : RecorderState} (h : Inv s) : Inv (stopRecording s) := by
  obtain ⟨h1, h2, h3, h4, h5, h6, h7, h8, h9⟩ := h
  by_cases hg : (s.hasMediaRecorder && s.isRecording) = true
  · have hc := hg
    rw [Bool.and_eq_true] at hc
    obtain ⟨hmr, hrec⟩ := hc
    have hs : s.hasStream = true :=
      (h4 hrec).1
    obtain ⟨hun, hb, hlive⟩ :=
      recording_no_artifact ⟨h1, h2, h3, h4, h5, h6, h7, h8, h9⟩ hrec
    cases ht : s.timerOn with
    | true =>
        have htk : s.activeTickers = 1 := by rw [h2, ht]; rfl
        refine ⟨?_, ?_, ?_, ?_, ?_, ?_, ?_, ?_, ?_⟩ <;>
          simp [stopRecording, stopTimer, hg, hs, ht, htk, hlive]
        exact h9
    | false =>
        have htk : s.activeTickers = 0 := by rw [h2, ht]; rfl
        refine ⟨?_, ?_, ?_, ?_, ?_, ?_, ?_, ?_, ?_⟩ <;>
          simp [stopRecording, stopTimer, hg, hs, ht, htk, hlive]
        exact h9
  · unfold stopRecording
    rw [if_neg hg]
    exact ⟨h1, h2, h3, h4, h5, h6, h7, h8, h9⟩

lemma Inv_pauseRecording {s : RecorderState} (h : Inv s) : Inv (pauseRecording s) := by
  obtain ⟨h1, h2, h3, h4, h5, h6, h7, h8, h9⟩ := h
  by_cases hg : (s.hasMediaRecorder && s.isRecording) = true
  · have hc := hg
    rw [Bool.and_eq_true] at hc
    obtain ⟨hmr, hrec⟩ := hc
    obtain ⟨hun, hb, hlive⟩ :=
      recording_no_artifact ⟨h1, h2, h3, h4, h5, h6, h7, h8, h9⟩ hrec
    cases hpp : s.isPaused with
    | true =>
        have ht : s.timerOn = false := by rw [h1, hrec, hpp]; rfl
        have htk : s.activeTickers = 0 := by rw [h2, ht]; rfl
        refine ⟨?_, ?_, ?_, ?_, ?_, ?_, ?_, ?_, ?_⟩ <;>
          simp [pauseRecording, startTimer, stopTimer, hg, hpp, ht, htk, hrec,
            h3, hun, hb, hlive, h4]
        exact h9
    | false =>
        have ht : s.timerOn = true := by rw [h1, hrec, hpp]; rfl
        have htk : s.activeTickers = 1 := by rw [h2, ht]; rfl
        refine ⟨?_, ?_, ?_, ?_, ?_, ?_, ?_, ?_, ?_⟩ <;>
          simp [pauseRecording, startTimer, stopTimer, hg, hpp, ht, htk, hrec,
            h3, hun, hb, hlive, h4]
        exact h9
  · unfold pauseRecording
    rw [if_neg hg]
    exact ⟨h1, h2, h3, h4, h5, h6, h7, h8, h9⟩

lemma Inv_playAudio {s : RecorderState} (h : Inv s) : Inv (playAudio s) := by
  obtain ⟨h1, h2, h3, h4, h5, h6, h7, h8, h9⟩ := h
  unfold playAudio
  split
  next => exact ⟨h1, h2, h3, h4, h5, h6, h7, h8, h9⟩
  next => exact ⟨h1, h2, h3, h4, h5, h6, h7, h8, h9⟩

lemma Inv_revokeAudioUrl {s : RecorderState} (h : Inv s) : Inv (revokeAudioUrl s) := by
  obtain ⟨h1, h2, h3, h4, h5, h6, h7, h8, h9⟩ := h
  unfold revokeAudioUrl
  split
  next u hu =>
    refine ⟨h1, h2, h3, h4, h5, h6, h7, ?_, h9⟩
    left
    rcases h8 with h8 | h8
    · simp [h8]
    · rw [h8, hu]
      simp
  next => exact ⟨h1, h2, h3, h4, h5, h6, h7, h8, h9⟩

lemma Inv_handleSend {s : RecorderState} (h : Inv s) : Inv (handleSend s) := by
  unfold handleSend
  split
  next b hb => exact Inv_revokeAudioUrl h
  next => exact h

lemma Inv_handleCancel {s : RecorderState} (h : Inv s) : Inv (handleCancel s) := by
  obtain ⟨h1, h2, h3, h4, h5, h6, h7, h8, h9⟩ := h
  cases hu : s.audioUrl with
  | none =>
      have he : handleCancel s = stopRecording s := by simp [handleCancel, hu]
      rw [he]
      exact Inv_stopRecording ⟨h1, h2, h3, h4, h5, h6, h7, h8, h9⟩
  | some u =>
      have hr : s.isRecording = false := h7 (by simp [hu])
      have hst : stopRecording s = s := by
        unfold stopRecording
        rw [hr]
        simp
      have he : handleCancel s = { s with liveUrls := s.liveUrls.erase u } := by
        simp [handleCancel, hu, hst]
      have he2 : revokeAudioUrl s = { s with liveUrls := s.liveUrls.erase u } := by
        simp [revokeAudioUrl, hu]
      rw [he, ← he2]
      exact Inv_revokeAudioUrl ⟨h1, h2, h3, h4, h5, h6, h7, h8, h9⟩

lemma Inv_step (ev : Event) {s : RecorderState} (h : Inv s) : Inv (step ev s) := by
  cases ev with
  | startClick env =>
      simp only [step]
      split
      next hg =>
        rw [Bool.and_eq_true] at hg
        exact Inv_startRecording env h (by simpa using hg.1) hg.2
      next => exact h
  | tick =>
      simp only [step]
      split
      next => exact h
      next => exact h
  | dataAvailable chunk =>
      simp only [step]
      split
      next hg =>
        split
        next hc =>
          obtain ⟨h1, h2, h3, h4, h5, h6, h7, h8, h9⟩ := h
          refine ⟨h1, h2, h3, h4, h5, h6, h7, h8, ?_⟩
          intro c hcm
          rcases List.mem_append.mp hcm with hx | hx
          · exact h9 c hx
          · have hce : c = chunk := by simpa using hx
            subst hce
            intro hnil
            rw [hnil] at hc
            simp at hc
        next => exact h
      next => exact h
  | stopClick => exact Inv_stopRecording h
  | pauseClick => exact Inv_pauseRecording h
  | playClick => exact Inv_playAudio h
  | sendClick => exact Inv_handleSend h
  | cancelClick => exact Inv_handleCancel h

lemma Inv_run (evs : List Event) {s : RecorderState} (h : Inv s) : Inv (run evs s) := by
  induction evs generalizing s with
  | nil => exact h
  | cons e es ih => exact ih (Inv_step e h)

lemma phase_recording_iff (s : RecorderState) :
    s.phase = Phase.Recording ↔ s.isRecording = true ∧ s.isPaused = false := by
  by_cases hu : s.audioUrl.isSome = true <;>
    cases hr : s.isRecording <;> cases hp : s.isPaused <;>
      simp [RecorderState.phase, hr, hp, hu]

lemma phase_paused_iff (s : RecorderState) :
    s.phase = Phase.Paused ↔ s.isRecording = true ∧ s.isPaused = true := by
  by_cases hu : s.audioUrl.isSome = true <;>
    cases hr : s.isRecording <;> cases hp : s.isPaused <;>
      simp [RecorderState.phase, hr, hp, hu]

lemma phase_idle_iff (s : RecorderState) :
    s.phase = Phase.Idle ↔ s.isRecording = false ∧ s.audioUrl.isSome = false := by
  by_cases hu : s.audioUrl.isSome = true <;>
    cases hr : s.isRecording <;> cases hp : s.isPaused <;>
      simp [RecorderState.phase, hr, hp, hu]

lemma startRecording_audioBlob (env : StartEnv) (s : RecorderState) :
    (startRecording env s).audioBlob = s.audioBlob := by
  obtain ⟨sup, mic, its⟩ := env
  cases sup <;> cases mic <;> rfl

lemma pauseRecording_audioBlob (s : RecorderState) :
    (pauseRecording s).audioBlob = s.audioBlob := by
  simp only [pauseRecording, startTimer, stopTimer]
  split_ifs <;> rfl

lemma revokeAudioUrl_audioBlob (s : RecorderState) :
    (revokeAudioUrl s).audioBlob = s.audioBlob := by
  unfold revokeAudioUrl
  split <;> rfl

lemma revokeAudioUrl_isRecording (s : RecorderState) :
    (revokeAudioUrl s).isRecording = s.isRecording := by
  unfold revokeAudioUrl
  split <;> rfl

lemma revokeAudioUrl_phase (s : RecorderState) :
    (revokeAudioUrl s).phase = s.phase := by
  unfold revokeAudioUrl
  split <;> rfl

lemma handleSend_audioBlob (s : RecorderState) :
    (handleSend s).audioBlob = s.audioBlob := by
  unfold handleSend
  split
  next b hb => rw [revokeAudioUrl_audioBlob]
  next => rfl

lemma stopRecording_of_not_recording {s : RecorderState}
    (hr : s.isRecording = false) : stopRecording s = s := by
  unfold stopRecording
  rw [hr]
  simp

lemma stopRecording_isRecording_false {s : RecorderState} (h : Inv s) :
    (stopRecording s).isRecording = false := by
  obtain ⟨h1, h2, h3, h4, h5, h6, h7, h8, h9⟩ := h
  by_cases hg : (s.hasMediaRecorder && s.isRecording) = true
  · unfold stopRecording stopTimer
    rw [if_pos hg]
    split_ifs <;> rfl
  · cases hr : s.isRecording
    · rw [stopRecording_of_not_recording hr, hr]
    · exact absurd (by rw [(h4 hr).2, hr]; rfl) hg

lemma revokeAudioUrl_liveUrls_nil {s : RecorderState} (h : Inv s) :
    (revokeAudioUrl s).liveUrls = [] := by
  obtain ⟨h1, h2, h3, h4, h5, h6, h7, h8, h9⟩ := h
  unfold revokeAudioUrl
  split
  next u hu =>
    rcases h8 with h8 | h8
    · simp [h8]
    · rw [h8, hu]
      simp
  next hu =>
    rcases h8 with h8 | h8
    · exact h8
    · rw [h8, hu]
      rfl

lemma revokeAudioUrl_of_nil {s : RecorderState} (hl : s.liveUrls = []) :
    revokeAudioUrl s = s := by
  obtain ⟨a1, a2, a3, a4, a5, a6, a7, a8, a9, a10, a11, a12, a13, a14, a15, a16, a17⟩ := s
  simp only at hl
  subst hl
  unfold revokeAudioUrl
  cases a4 <;> rfl

lemma stopTimer_idem (s : RecorderState) : stopTimer (stopTimer s) = stopTimer s := by
  cases ht : s.timerOn
  · have h0 : stopTimer s = s := by simp [stopTimer, ht]
    rw [h0, h0]
  · have h0 : stopTimer s =
        { s with timerOn := false, activeTickers := s.activeTickers - 1 } := by
      simp [stopTimer, ht]
    rw [h0]
    simp [stopTimer]

lemma handleCancel_none_url {s : RecorderState} (hu : s.audioUrl = none) :
    handleCancel s = stopRecording s := by
  simp [handleCancel, hu]

lemma handleCancel_some_url {s : RecorderState} {u : Nat}
    (hu : s.audioUrl = some u) :
    handleCancel s =
      { stopRecording s with liveUrls := (stopRecording s).liveUrls.erase u } := by
  simp [handleCancel, hu]

lemma handleCancel_audioBlob (s : RecorderState) :
    (handleCancel s).audioBlob = (stopRecording s).audioBlob := by
  cases hu : s.audioUrl
  · rw [handleCancel_none_url hu]
  · rw [handleCancel_some_url hu]

lemma handleCancel_isRecording {s : RecorderState} (h : Inv s) :
    (handleCancel s).isRecording = false := by
  cases hu : s.audioUrl
  · rw [handleCancel_none_url hu]
    exact stopRecording_isRecording_false h
  · rw [handleCancel_some_url hu]
    exact stopRecording_isRecording_false h

lemma handleCancel_liveUrls_nil {s : RecorderState} (h : Inv s)
    (hr : s.isRecording = false) : (handleCancel s).liveUrls = [] := by
  obtain ⟨h1, h2, h3, h4, h5, h6, h7, h8, h9⟩ := h
  cases hu : s.audioUrl
  · rw [handleCancel_none_url hu, stopRecording_of_not_recording hr]
    rcases h8 with h8 | h8
    · exact h8
    · rw [h8, hu]
      rfl
  · rw [handleCancel_some_url hu, stopRecording_of_not_recording hr]
    show List.erase s.liveUrls _ = []
    rcases h8 with h8 | h8
    · rw [h8]
      rfl
    · rw [h8, hu]
      simp

lemma handleCancel_of_cancelled {s : RecorderState} (hr : s.isRecording = false)
    (hl : s.liveUrls = []) : handleCancel s = s := by
  obtain ⟨a1, a2, a3, a4, a5, a6, a7, a8, a9, a10, a11, a12, a13, a14, a15, a16, a17⟩ := s
  simp only at hr hl
  subst hr
  subst hl
  unfold handleCancel
  cases a4 <;> simp [stopRecording]

/-- C3: while the session is in Recording, each tick event changes it only
by increasing the elapsed seconds by exactly one; while Paused, a tick
changes nothing; and the specified scenario, start, three ticks, pause,
two ticks, resume, two ticks, stop, ends with five elapsed seconds, an
artifact present, the capture device released, and phase Ready. -/
theorem tick_duration_spec (evs : List Event) :
    ((run evs initState).phase = Phase.Recording →
        step Event.tick (run evs initState) =
          { run evs initState with duration := (run evs initState).duration + 1 })
    ∧ ((run evs initState).phase = Phase.Paused →
        step Event.tick (run evs initState) = run evs initState)
    ∧ ((run scenarioEvents initState).duration = 5
        ∧ (run scenarioEvents initState).audioBlob.isSome = true
        ∧ (run scenarioEvents initState).tracksLive = false
        ∧ (run scenarioEvents initState).phase = Phase.Ready) := by
  obtain ⟨h1, h2, h3, h4, h5, h6, h7, h8, h9⟩ := Inv_run evs Inv_initState
  refine ⟨?_, ?_, by decide, by decide, by decide, by decide⟩
  · intro hph
    obtain ⟨hr, hp⟩ := (phase_recording_iff (run evs initState)).mp hph
    have htOn : (run evs initState).timerOn = true := by rw [h1, hr, hp]; rfl
    have htk : (run evs initState).activeTickers = 1 := by rw [h2, htOn]; rfl
    simp [step, htk]
  · intro hph
    obtain ⟨hr, hp⟩ := (phase_paused_iff (run evs initState)).mp hph
    have htOn : (run evs initState).timerOn = false := by rw [h1, hr, hp]; rfl
    have htk : (run evs initState).activeTickers = 0 := by rw [h2, htOn]; rfl
    simp [step, htk]

/-- Witness: one tick after a successful start adds one second, and a tick
right after pausing changes nothing. -/
theorem tick_duration_spec_witness :
    step Event.tick (run [Event.startClick env0] initState) =
      { run [Event.startClick env0] initState with
          duration := (run [Event.startClick env0] initState).duration + 1 }
    ∧ step Event.tick (run [Event.startClick env0, Event.pauseClick] initState) =
        run [Event.startClick env0, Event.pauseClick] initState :=
  ⟨(tick_duration_spec [Event.startClick env0]).1 (by decide),
   (tick_duration_spec [Event.startClick env0, Event.pauseClick]).2.1 (by decide)⟩

/-- C4: from Recording or Paused alike, stop finalizes the artifact as the
in-order concatenation of the accumulated (all non-empty) fragments tagged
with the negotiated encoding format and releases the capture-device
tracks; and stopRecording is the only transition that changes the
artifact: any event that does so produces exactly its result. -/
theorem stop_finalizes_spec (evs : List Event) (ev : Event) :
    ((run evs initState).isRecording = true →
        (step Event.stopClick (run evs initState)).audioBlob =
          some { data := (run evs initState).audioChunks.flatten,
                 type := (run evs initState).mimeType }
        ∧ (step Event.stopClick (run evs initState)).tracksLive = false
        ∧ (∀ c ∈ (run evs initState).audioChunks, c ≠ []))
    ∧ ((step ev (run evs initState)).audioBlob ≠ (run evs initState).audioBlob →
        (step ev (run evs initState)).audioBlob =
          (stopRecording (run evs initState)).audioBlob) := by
  obtain ⟨h1, h2, h3, h4, h5, h6, h7, h8, h9⟩ := Inv_run evs Inv_initState
  constructor
  · intro hrec
    have hg : ((run evs initState).hasMediaRecorder
        && (run evs initState).isRecording) = true := by
      rw [(h4 hrec).2, hrec]; rfl
    have hs : (run evs initState).hasStream = true := (h4 hrec).1
    refine ⟨?_, ?_, h9⟩ <;>
      · rw [show step Event.stopClick (run evs initState) =
          stopRecording (run evs initState) from rfl]
        unfold stopRecording stopTimer
        rw [if_pos hg]
        split_ifs <;> simp [hs]
  · intro hne
    cases ev with
    | startClick env =>
        exfalso
        apply hne
        simp only [step]
        split
        · exact startRecording_audioBlob env (run evs initState)
        · rfl
    | tick =>
        exfalso
        apply hne
        simp only [step]
        split <;> rfl
    | dataAvailable chunk =>
        exfalso
        apply hne
        simp only [step]
        split
        · split <;> rfl
        · rfl
    | stopClick => rfl
    | pauseClick =>
        exfalso
        exact hne (pauseRecording_audioBlob (run evs initState))
    | playClick =>
        exfalso
        apply hne
        simp only [step, playAudio]
        split <;> rfl
    | sendClick =>
        exfalso
        exact hne (handleSend_audioBlob (run evs initState))
    | cancelClick => exact handleCancel_audioBlob (run evs initState)

/-- Witness: stopping after a start and two delivered fragments finalizes
the concatenated payload tagged with the negotiated format and releases
the device. -/
theorem stop_finalizes_spec_witness :
    (step Event.stopClick
        (run [Event.startClick env0, Event.dataAvailable [1, 2],
              Event.dataAvailable [3]] initState)).audioBlob =
      some { data := [1, 2, 3], type := "audio/webm" }
    ∧ (step Event.stopClick
        (run [Event.startClick env0, Event.dataAvailable [1, 2],
              Event.dataAvailable [3]] initState)).tracksLive = false := by
  have h := (stop_finalizes_spec
      [Event.startClick env0, Event.dataAvailable [1, 2], Event.dataAvailable [3]]
      Event.stopClick).1 (by decide)
  exact ⟨by rw [h.1]; decide, h.2.1⟩

/-- C5: a finalized artifact is never overwritten by any later event, an
event that sets the artifact moves the session to Ready, and a stop issued
when the session is not recording (in particular a second stop) changes
nothing at all. -/
theorem artifact_once_spec (evs : List Event) (ev : Event) (b : Blob) :
    ((run evs initState).audioBlob = some b →
        (step ev (run evs initState)).audioBlob = some b)
    ∧ ((run evs initState).audioBlob = none →
        (step ev (run evs initState)).audioBlob ≠ none →
        (step ev (run evs initState)).phase = Phase.Ready)
    ∧ ((run evs initState).isRecording = false →
        step Event.stopClick (run evs initState) = run evs initState) := by
  obtain ⟨h1, h2, h3, h4, h5, h6, h7, h8, h9⟩ := Inv_run evs Inv_initState
  refine ⟨?_, ?_, fun hr => stopRecording_of_not_recording hr⟩
  · intro hb
    have hr : (run evs initState).isRecording = false :=
      h7 (by rw [← h6, hb]; rfl)
    obtain ⟨u, hu⟩ : ∃ u, (run evs initState).audioUrl = some u := by
      have : (run evs initState).audioUrl.isSome = true := by rw [← h6, hb]; rfl
      exact Option.isSome_iff_exists.mp this
    cases ev with
    | startClick env => simp [step, hu, hb]
    | tick =>
        simp only [step]
        split <;> exact hb
    | dataAvailable chunk => simp [step, hr, hb]
    | stopClick =>
        exact (congrArg RecorderState.audioBlob
          (stopRecording_of_not_recording hr)).trans hb
    | pauseClick => exact (pauseRecording_audioBlob _).trans hb
    | playClick =>
        simp only [step, playAudio]
        split <;> exact hb
    | sendClick => exact (handleSend_audioBlob _).trans hb
    | cancelClick =>
        exact (handleCancel_audioBlob _).trans
          ((congrArg RecorderState.audioBlob
            (stopRecording_of_not_recording hr)).trans hb)
  · intro hb hne
    cases ev with
    | startClick env =>
        exfalso
        apply hne
        simp only [step]
        split
        · rw [startRecording_audioBlob]; exact hb
        · exact hb
    | tick =>
        exfalso
        apply hne
        simp only [step]
        split <;> exact hb
    | dataAvailable chunk =>
        exfalso
        apply hne
        simp only [step]
        split
        · split <;> exact hb
        · exact hb
    | stopClick =>
        cases hr : (run evs initState).isRecording
        · exfalso
          apply hne
          exact (congrArg RecorderState.audioBlob
            (stopRecording_of_not_recording hr)).trans hb
        · have hg : ((run evs initState).hasMediaRecorder
              && (run evs initState).isRecording) = true := by
            rw [(h4 hr).2, hr]; rfl
          rw [show step Event.stopClick (run evs initState) =
            stopRecording (run evs initState) from rfl]
          unfold stopRecording stopTimer
          rw [if_pos hg]
          split_ifs <;> simp [RecorderState.phase]
    | pauseClick =>
        exfalso
        exact hne ((pauseRecording_audioBlob _).trans hb)
    | playClick =>
        exfalso
        apply hne
        simp only [step, playAudio]
        split <;> exact hb
    | sendClick =>
        exfalso
        exact hne ((handleSend_audioBlob _).trans hb)
    | cancelClick =>
        cases hr : (run evs initState).isRecording
        · exfalso
          apply hne
          exact (handleCancel_audioBlob _).trans
            ((congrArg RecorderState.audioBlob
              (stopRecording_of_not_recording hr)).trans hb)
        · have hg : ((run evs initState).hasMediaRecorder
              && (run evs initState).isRecording) = true := by
            rw [(h4 hr).2, hr]; rfl
          have hun : (run evs initState).audioUrl = none := by
            cases hu2 : (run evs initState).audioUrl
            · rfl
            · rw [hb, hu2] at h6
              cases h6
          show (handleCancel (run evs initState)).phase = Phase.Ready
          rw [handleCancel_none_url hun]
          unfold stopRecording stopTimer
          rw [if_pos hg]
          split_ifs <;> simp [RecorderState.phase]

/-- Witness: after the specified scenario the artifact survives a preview
toggle unchanged, and a second stop is a strict no-op. -/
theorem artifact_once_spec_witness :
    (step Event.playClick (run scenarioEvents initState)).audioBlob =
      some { data := [], type := "audio/webm" }
    ∧ step Event.stopClick (run scenarioEvents initState) =
        run scenarioEvents initState :=
  ⟨(artifact_once_spec scenarioEvents Event.playClick
      { data := [], type := "audio/webm" }).1 (by decide),
   (artifact_once_spec scenarioEvents Event.stopClick
      { data := [], type := "audio/webm" }).2.2 (by decide)⟩

/-- C6 counterexample: the claim fails on the code: a cancel issued while
recording revokes by the pre-stop (absent) preview URL, so the URL created
by the deferred finalization stays live, and a second cancel changes the
state further by revoking it, refuting both the no-preview-handle part and
the idempotence part of the claim. -/
theorem cancel_leak_counterexample :
    (step Event.cancelClick (run [Event.startClick env0] initState)).liveUrls ≠ []
    ∧ step Event.cancelClick (step Event.cancelClick
          (run [Event.startClick env0] initState)) ≠
        step Event.cancelClick (run [Event.startClick env0] initState) := by
  decide

/-- C6 amended: cancel can be invoked from every reachable state including
the initial idle one and never throws (it is a total function); it always
releases the capture device and stops the ticker; invoked while not
recording it leaves no live preview URL and is idempotent; invoked while
recording it leaves exactly the preview URL created by the deferred
finalization live, and from the second cancel on the operation changes
nothing further. -/
theorem cancel_safe_amended (evs : List Event) :
    (step Event.cancelClick (run evs initState)).tracksLive = false
    ∧ (step Event.cancelClick (run evs initState)).activeTickers = 0
    ∧ (step Event.cancelClick (run evs initState)).timerOn = false
    ∧ ((run evs initState).isRecording = true →
        (step Event.cancelClick (run evs initState)).liveUrls =
          [(run evs initState).nextUrl])
    ∧ ((run evs initState).isRecording = false →
        (step Event.cancelClick (run evs initState)).liveUrls = []
        ∧ step Event.cancelClick (step Event.cancelClick (run evs initState)) =
            step Event.cancelClick (run evs initState))
    ∧ step Event.cancelClick (step Event.cancelClick
          (step Event.cancelClick (run evs initState))) =
        step Event.cancelClick (step Event.cancelClick (run evs initState)) := by
  have hI := Inv_run evs Inv_initState
  have hIc : Inv (step Event.cancelClick (run evs initState)) :=
    Inv_step Event.cancelClick hI
  have hcr : (step Event.cancelClick (run evs initState)).isRecording = false :=
    handleCancel_isRecording hI
  have hct : (step Event.cancelClick (run evs initState)).timerOn = false := by
    rw [hIc.1, hcr]
    rfl
  refine ⟨by rw [hIc.2.2.1, hcr], by rw [hIc.2.1, hct]; rfl, hct, ?_, ?_, ?_⟩
  · intro hr
    obtain ⟨hun, hb, hlive⟩ := recording_no_artifact hI hr
    have hg : ((run evs initState).hasMediaRecorder
        && (run evs initState).isRecording) = true := by
      obtain ⟨h1, h2, h3, h4, h5, h6, h7, h8, h9⟩ := hI
      rw [(h4 hr).2, hr]
      rfl
    show (handleCancel (run evs initState)).liveUrls = _
    rw [handleCancel_none_url hun]
    unfold stopRecording stopTimer
    rw [if_pos hg]
    split_ifs <;> simp [hlive]
  · intro hr
    have hl1 : (step Event.cancelClick (run evs initState)).liveUrls = [] :=
      handleCancel_liveUrls_nil hI hr
    exact ⟨hl1, handleCancel_of_cancelled hcr hl1⟩
  · have hcr2 : (step Event.cancelClick
        (step Event.cancelClick (run evs initState))).isRecording = false :=
      handleCancel_isRecording hIc
    have hl2 : (step Event.cancelClick
        (step Event.cancelClick (run evs initState))).liveUrls = [] :=
      handleCancel_liveUrls_nil hIc hcr
    exact handleCancel_of_cancelled hcr2 hl2

/-- Witness: cancelling after the recorded-and-stopped scenario leaves no
live preview URL, while cancelling while recording leaves exactly the URL
the deferred finalization created. -/
theorem cancel_safe_amended_witness :
    (step Event.cancelClick (run scenarioEvents initState)).liveUrls = []
    ∧ (step Event.cancelClick (run [Event.startClick env0] initState)).liveUrls =
        [(run [Event.startClick env0] initState).nextUrl] :=
  ⟨((cancel_safe_amended scenarioEvents).2.2.2.2.1 (by decide)).1,
   (cancel_safe_amended [Event.startClick env0]).2.2.2.1 (by decide)⟩

/-- C7: a start attempt that fails, for lack of capture capability or for
any acquisition failure, only records the distinguishing human-readable
error message: the session stays Idle, holds no device tracks and no
ticker, and a subsequent successful start still reaches Recording; the
capability check is decided before the device outcome matters, and the
permission-denied and no-device messages differ. -/
theorem start_failure_spec (evs : List Event) (env : StartEnv) :
    ((run evs initState).phase = Phase.Idle →
      ((env.supported = false →
          step (Event.startClick env) (run evs initState) =
            { run evs initState with error := some unsupportedMsg })
        ∧ (env.supported = true → env.mic ≠ MicOutcome.granted →
            step (Event.startClick env) (run evs initState) =
              { run evs initState with error := micErrorMessage env.mic })
        ∧ ((env.supported = false ∨ env.mic ≠ MicOutcome.granted) →
            (step (Event.startClick env) (run evs initState)).phase = Phase.Idle
            ∧ (step (Event.startClick env) (run evs initState)).tracksLive = false
            ∧ (step (Event.startClick env) (run evs initState)).activeTickers = 0)
        ∧ (∀ env2 : StartEnv, env2.supported = true →
            env2.mic = MicOutcome.granted →
            (step (Event.startClick env2)
                (step (Event.startClick env) (run evs initState))).phase =
              Phase.Recording)))
    ∧ micErrorMessage MicOutcome.notAllowedError ≠
        micErrorMessage MicOutcome.notFoundError := by
  obtain ⟨h1, h2, h3, h4, h5, h6, h7, h8, h9⟩ := Inv_run evs Inv_initState
  refine ⟨?_, by decide⟩
  intro hph
  obtain ⟨hr, hus⟩ := (phase_idle_iff (run evs initState)).mp hph
  have hun : (run evs initState).audioUrl = none := by
    cases hu : (run evs initState).audioUrl
    · rfl
    · rw [hu] at hus; cases hus
  have hp : (run evs initState).isPaused = false := by
    cases hpp : (run evs initState).isPaused
    · rfl
    · rw [h5 hpp] at hr; cases hr
  have hgate : ∀ e : StartEnv, step (Event.startClick e) (run evs initState) =
      startRecording e (run evs initState) := by
    intro e
    simp [step, hr, hun]
  obtain ⟨sup, mic, its⟩ := env
  refine ⟨?_, ?_, ?_, ?_⟩
  · intro hsup
    cases hsup
    rw [hgate]
    rfl
  · intro hsup hmic
    cases hsup
    cases mic with
    | granted => exact absurd rfl hmic
    | notAllowedError => rw [hgate]; rfl
    | notFoundError => rw [hgate]; rfl
    | otherError => rw [hgate]; rfl
  · intro hfail
    have hres : step (Event.startClick ⟨sup, mic, its⟩) (run evs initState) =
        { run evs initState with
            error := if sup = false then some unsupportedMsg
                     else micErrorMessage mic } := by
      rw [hgate]
      cases sup with
      | false => rfl
      | true =>
          cases mic with
          | granted =>
              rcases hfail with hf | hf
              · cases hf
              · exact absurd rfl hf
          | notAllowedError => rfl
          | notFoundError => rfl
          | otherError => rfl
    rw [hres]
    refine ⟨?_, ?_, ?_⟩
    · show (run evs initState).phase = Phase.Idle
      exact hph
    · show (run evs initState).tracksLive = false
      rw [h3]
      exact hr
    · show (run evs initState).activeTickers = 0
      rw [h2, h1, hr]
      rfl
  · intro env2 hs2 hm2
    obtain ⟨sup2, mic2, its2⟩ := env2
    cases hs2
    cases hm2
    have hfst : ∀ t : RecorderState, t.isRecording = false → t.audioUrl = none →
        t.isPaused = false →
        (step (Event.startClick ⟨true, MicOutcome.granted, its2⟩) t).phase =
          Phase.Recording := by
      intro t htr htu htp
      have : step (Event.startClick ⟨true, MicOutcome.granted, its2⟩) t =
          startRecording ⟨true, MicOutcome.granted, its2⟩ t := by
        simp [step, htr, htu]
      rw [this]
      unfold startRecording startTimer
      simp [RecorderState.phase, htp]
    cases hsup : sup with
    | false =>
        have hres := hgate ⟨false, mic, its⟩
        rw [show startRecording ⟨false, mic, its⟩ (run evs initState) =
          { run evs initState with error := some unsupportedMsg } from rfl] at hres
        rw [hres]
        exact hfst _ hr hun hp
    | true =>
        cases mic with
        | granted =>
            have hres := hgate ⟨true, MicOutcome.granted, its⟩
            rw [hres]
            unfold startRecording startTimer
            rw [if_neg (by simp)]
            simp only [step]
            rw [if_neg (by simp)]
            simp [RecorderState.phase, hp]
        | notAllowedError =>
            rw [hgate ⟨true, MicOutcome.notAllowedError, its⟩]
            exact hfst _ hr hun hp
        | notFoundError =>
            rw [hgate ⟨true, MicOutcome.notFoundError, its⟩]
            exact hfst _ hr hun hp
        | otherError =>
            rw [hgate ⟨true, MicOutcome.otherError, its⟩]
            exact hfst _ hr hun hp

/-- Witness: a permission-denied start from the initial state only sets
the permission message, and a retry with a granted device reaches
Recording. -/
theorem start_failure_spec_witness :
    step (Event.startClick
        { supported := true, mic := MicOutcome.notAllowedError,
          isTypeSupported := fun _ => true }) initState =
      { initState with
          error := micErrorMessage MicOutcome.notAllowedError }
    ∧ (step (Event.startClick env0)
        (step (Event.startClick
            { supported := true, mic := MicOutcome.notAllowedError,
              isTypeSupported := fun _ => true }) initState)).phase =
        Phase.Recording :=
  ⟨((start_failure_spec []
      { supported := true, mic := MicOutcome.notAllowedError,
        isTypeSupported := fun _ => true }).1 (by decide)).2.1 rfl (by decide),
   ((start_failure_spec []
      { supported := true, mic := MicOutcome.notAllowedError,
        isTypeSupported := fun _ => true }).1 (by decide)).2.2.2 env0 rfl rfl⟩

/-- C8: in every reachable session state at most one ticker runs, exactly
one ticker runs precisely when the session is in unpaused Recording, and
stopping the ticker is idempotent. -/
theorem single_ticker_spec (evs : List Event) :
    (run evs initState).activeTickers ≤ 1
    ∧ ((run evs initState).activeTickers = 1 ↔
        (run evs initState).phase = Phase.Recording)
    ∧ stopTimer (stopTimer (run evs initState)) = stopTimer (run evs initState) := by
  obtain ⟨h1, h2, h3, h4, h5, h6, h7, h8, h9⟩ := Inv_run evs Inv_initState
  refine ⟨?_, ⟨?_, ?_⟩, stopTimer_idem (run evs initState)⟩
  · rw [h2]
    split_ifs <;> omega
  · intro htk
    have htOn : (run evs initState).timerOn = true := by
      cases ht : (run evs initState).timerOn
      · rw [h2, ht] at htk; cases htk
      · rfl
    rw [phase_recording_iff]
    have hand : ((run evs initState).isRecording
        && !(run evs initState).isPaused) = true := by rw [← h1]; exact htOn
    rw [Bool.and_eq_true] at hand
    exact ⟨hand.1, by simpa using hand.2⟩
  · intro hph
    obtain ⟨hrec, hpaused⟩ := (phase_recording_iff (run evs initState)).mp hph
    rw [h2, h1, hrec, hpaused]
    rfl

/-- Witness: right after a successful start exactly one ticker runs. -/
theorem single_ticker_spec_witness :
    (run [Event.startClick env0] initState).activeTickers = 1 :=
  (single_ticker_spec [Event.startClick env0]).2.1.mpr (by decide)

/-- C10: in any session state with no finalized artifact, send is a
guarded no-op: nothing is emitted to the caller, nothing is revoked, and
the session state is unchanged. -/
theorem send_guarded_spec (s : RecorderState) (h : s.audioBlob = none) :
    step Event.sendClick s = s := by
  simp [step, handleSend, h]

/-- Witness: sending in the freshly mounted state changes nothing. -/
theorem send_guarded_spec_witness : step Event.sendClick initState = initState :=
  send_guarded_spec initState rfl

end Sauti

